import Mathlib

/-!
Verification of the video-upload pipeline of
`learn-file-storage-s3-golang-starter` (Go).

The Go source (`handler_upload_video.go`) is shallowly embedded here:
* pure helpers (`approx`, the classification inside `getVideoAspectRatio`,
  the reference splitting inside `dbVideoToSignedVideo`, base64 raw-URL
  encoding) are translated directly into Lean functions;
* the effectful handler `handlerUploadVideo` is embedded as a pure
  function from an environment `Env` — one field per external outcome
  (UUID parse, JWT validation, DB read, multipart parse, randomness,
  temp-file creation, the external ffmpeg/ffprobe tools, S3 calls) — to
  the list of HTTP responses it writes and the list of side-effect
  events it performs, in order.  Go `defer` statements are modelled by
  appending the deferred events on every exit path of the deferred
  region (LIFO, as Go runs them);
* Go `float64` arithmetic on the aspect ratio is modelled exactly:
  every float64 value in play is a dyadic rational (`Dyadic`, an
  integer significand times a power of two), each arithmetic operation
  performs one round-to-nearest-even to a 53-bit significand
  (`roundPos`), and comparisons are exact — IEEE-754 binary64 semantics
  in the normal range, which covers every value the handler can
  compute; widths and heights are Go `int`, modelled as `Int`;
* Go library functions used by the handler (`strings.Split` with a
  one-character separator, `mime.ParseMediaType`, `base64.RawURLEncoding`)
  are modelled by `goSplit`, `parseMediaType`, `base64RawURLEncode`.
-/

instance {ε α : Type} [DecidableEq ε] [DecidableEq α] : DecidableEq (Except ε α) := fun x y =>
  match x, y with
  | Except.error a, Except.error b =>
    if h : a = b then isTrue (by rw [h]) else isFalse (fun hh => by cases hh; exact h rfl)
  | Except.ok a, Except.ok b =>
    if h : a = b then isTrue (by rw [h]) else isFalse (fun hh => by cases hh; exact h rfl)
  | Except.error _, Except.ok _ => isFalse (fun hh => by cases hh)
  | Except.ok _, Except.error _ => isFalse (fun hh => by cases hh)

/-- Go `strings.Split(s, sep)` for a one-character separator `sep`
(the only way the handler uses it: separators `","`, `"/"`, `";"`):
split around every occurrence of the character.  Like Go, an empty
input yields `[""]` and empty fields are kept. -/
def goSplit (sep : Char) (s : String) : List String :=
  (s.data.splitOn sep).map (fun cs => (⟨cs⟩ : String))

/-- ASCII lowercasing of one character (the fragment of Go
`strings.ToLower` exercised by media types). -/
def goToLowerChar (c : Char) : Char :=
  if 65 ≤ c.toNat ∧ c.toNat ≤ 90 then Char.ofNat (c.toNat + 32) else c

/-- ASCII lowercasing of a string (Go `strings.ToLower` on ASCII input). -/
def goToLower (s : String) : String := ⟨s.data.map goToLowerChar⟩

/-- Whitespace recognizer used by `goTrim` (space, tab, newline, return). -/
def isSpaceChar (c : Char) : Bool := c = ' ' || c = '\t' || c = '\n' || c = '\r'

/-- Go `strings.TrimSpace` (ASCII whitespace). -/
def goTrim (s : String) : String :=
  ⟨((s.data.dropWhile isSpaceChar).reverse.dropWhile isSpaceChar).reverse⟩

/-- Go `mime.ParseMediaType`, restricted to what the handler relies on:
the value before the first `";"` is trimmed and lowercased and must be
`type/subtype` with both parts non-empty; the lowercased `type/subtype`
is returned.  (Token-character validation of the Go library is omitted;
the model is faithful on header values without embedded whitespace or
specials inside the type and subtype, which covers every input the
claims mention.) -/
def parseMediaType (v : String) : Except String String :=
  let base := goToLower (goTrim ((goSplit ';' v).headD ""))
  match goSplit '/' base with
  | [t, sub] =>
    if t = "" ∨ sub = "" then Except.error "mime: expected token after slash"
    else Except.ok base
  | _ => Except.error "mime: expected slash after first token"

/-- The base64url alphabet (RFC 4648, URL-safe): `A-Z`, `a-z`, `0-9`,
`-`, `_`. -/
def base64URLChar (n : Nat) : Char :=
  if n < 26 then Char.ofNat (65 + n)
  else if n < 52 then Char.ofNat (97 + (n - 26))
  else if n < 62 then Char.ofNat (48 + (n - 52))
  else if n = 62 then '-' else '_'

/-- Go `base64.RawURLEncoding.EncodeToString`: unpadded base64 with the
URL-safe alphabet, over a list of bytes (each `< 256`; reductions mod 64,
16, 4 make the definition total on all of `Nat`). -/
def base64RawURLEncode : List Nat → String
  | [] => ""
  | [b0] => ⟨[base64URLChar (b0 / 4 % 64), base64URLChar (b0 % 4 * 16)]⟩
  | [b0, b1] =>
    ⟨[base64URLChar (b0 / 4 % 64), base64URLChar (b0 % 4 * 16 + b1 / 16 % 16),
      base64URLChar (b1 % 16 * 4)]⟩
  | b0 :: b1 :: b2 :: rest =>
    (⟨[base64URLChar (b0 / 4 % 64), base64URLChar (b0 % 4 * 16 + b1 / 16 % 16),
       base64URLChar (b1 % 16 * 4 + b2 / 64 % 4), base64URLChar (b2 % 64)]⟩ : String)
      ++ base64RawURLEncode rest

/-- Go indexing `parts[1]` as the handler uses it on the result of
`strings.Split(contentType, "/")` (defaulting instead of panicking; the
index is in range whenever the preceding media-type parse succeeded). -/
def goIndex1 (parts : List String) : String := parts.getD 1 ""

/-- A binary64 (Go `float64`) value in the normal range, represented
exactly as the dyadic rational `m * 2^e`. -/
structure Dyadic where
  m : Int
  e : Int
deriving DecidableEq

/-- Bit length of a natural number, written with a fuel argument for
structural recursion; `n` itself is always enough fuel. -/
def bitsAux : Nat → Nat → Nat
  | 0, _ => 0
  | fuel + 1, n => if n = 0 then 0 else bitsAux fuel (n / 2) + 1

/-- Number of binary digits of `n` (0 for 0). -/
def natBits (n : Nat) : Nat := bitsAux n n

/-- Round the positive rational `n / d` to the nearest binary64 value:
53-bit significand, round half to even.  Exact in the normal range
(every value this development feeds it is far from subnormal and
overflow thresholds): the result is `m * 2^(E-52)` with
`2^52 ≤ m ≤ 2^53` and `E` the floor base-2 logarithm of `n/d`.
Zero inputs map to zero. -/
def roundPos (n d : Nat) : Dyadic :=
  if n = 0 ∨ d = 0 then ⟨0, 0⟩
  else
    let bn := natBits n
    let bd := natBits d
    let E : Int := if d * 2 ^ bn ≤ n * 2 ^ bd then (bn : Int) - bd else (bn : Int) - bd - 1
    let s : Int := 52 - E
    let a := if 0 ≤ s then n * 2 ^ s.toNat else n
    let b := if 0 ≤ s then d else d * 2 ^ (-s).toNat
    let q := a / b
    let r := a % b
    ⟨((if 2 * r < b then q else if b < 2 * r then q + 1
       else if q % 2 = 0 then q else q + 1 : Nat) : Int), E - 52⟩

/-- Round the signed dyadic `m * 2^e` to binary64. -/
def roundDy (m : Int) (e : Int) : Dyadic :=
  let d := if 0 ≤ e then roundPos (m.natAbs * 2 ^ e.toNat) 1
           else roundPos m.natAbs (2 ^ (-e).toNat)
  if m < 0 then ⟨-d.m, d.e⟩ else d

/-- Go `float64(w) / float64(h)`: integers of this size convert to
float64 exactly, so the single rounding is on the quotient.  Division
by zero (unreachable behind the zero-dimension check of the classifier)
is modelled as zero. -/
def fdivD (w h : Int) : Dyadic :=
  let d := roundPos w.natAbs h.natAbs
  if (w < 0 ∧ 0 < h) ∨ (0 < w ∧ h < 0) then ⟨-d.m, d.e⟩ else d

/-- Go float64 addition: exact dyadic sum, then one rounding. -/
def faddD (a b : Dyadic) : Dyadic :=
  roundDy (a.m * 2 ^ (a.e - min a.e b.e).toNat + b.m * 2 ^ (b.e - min a.e b.e).toNat)
    (min a.e b.e)

/-- Go float64 subtraction: exact dyadic difference, then one rounding. -/
def fsubD (a b : Dyadic) : Dyadic :=
  roundDy (a.m * 2 ^ (a.e - min a.e b.e).toNat - b.m * 2 ^ (b.e - min a.e b.e).toNat)
    (min a.e b.e)

/-- Go float64 `<`: float comparison is exact on the represented
values, so it is comparison of the dyadic rationals. -/
def dLt (a b : Dyadic) : Bool :=
  if a.e ≤ b.e then a.m < b.m * 2 ^ (b.e - a.e).toNat
  else a.m * 2 ^ (a.e - b.e).toNat < b.m

/-- The Go constant expression `16.0/9.0` as a float64 argument: Go
constant arithmetic is exact, so the one rounding happens on conversion
to `float64` — the value is `16/9` rounded to binary64. -/
def c169 : Dyadic := fdivD 16 9

/-- The Go constant `tolerance = 0.05` as float64: `1/20` rounded to
binary64. -/
def tolD : Dyadic := fdivD 1 20

/-- The Go constant expression `9.0/16.0` as float64 (`9/16` is exactly
representable). -/
def c916 : Dyadic := fdivD 9 16

/-- A single probed stream entry, from the Go struct
`ffprobeOutput.Streams[i]` with integer JSON fields `width`, `height`. -/
structure ProbeStream where
  width : Int
  height : Int
deriving DecidableEq

/-- The Go struct `ffprobeOutput`: the parsed JSON output of ffprobe,
a list of streams. -/
structure ffprobeOutput where
  streams : List ProbeStream
deriving DecidableEq

/-- Outcome of running ffprobe and `json.Unmarshal` on its output, the
two effectful steps at the head of `getVideoAspectRatio`: the tool run
can fail, the parse can fail, or a parsed value arrives. -/
inductive ProbeResult where
  | runError : ProbeResult
  | parseError : ProbeResult
  | parsed : ffprobeOutput → ProbeResult
deriving DecidableEq

/-- Go `approx(a, b float64) bool`:
`(a > b-tolerance) && (a < b+tolerance)` with `tolerance = 0.05`, in
float64 arithmetic: `b-tolerance` and `b+tolerance` each perform one
rounding, the comparisons are exact and strict. -/
def approx (a b : Dyadic) : Bool :=
  dLt (fsubD b tolD) a && dLt a (faddD b tolD)

/-- Go `getVideoAspectRatio(filePath string) (string, error)` as a pure
function of the probe outcome: propagate run/parse failures, fail on an
empty stream list or a zero dimension, otherwise classify the float64
ratio `float64(width)/float64(height)` against the float64 constants
`16.0/9.0` and `9.0/16.0` with `approx` (landscape checked first, then
portrait, else other).  Only the first stream is consulted. -/
def getVideoAspectRatio (probe : ProbeResult) : Except String String :=
  match probe with
  | ProbeResult.runError => Except.error "failed to run ffprobe"
  | ProbeResult.parseError => Except.error "failed to parse ffprobe output"
  | ProbeResult.parsed out =>
    match out.streams with
    | [] => Except.error "no streams found in video"
    | s :: _ =>
      if s.width = 0 ∨ s.height = 0 then
        Except.error "invalid width or height"
      else
        let ratio := fdivD s.width s.height
        if approx ratio c169 then Except.ok "landscape"
        else if approx ratio c916 then Except.ok "portrait"
        else Except.ok "other"

/-- The video record (Go `database.Video`): opaque identity, owner
identity, nullable storage/thumbnail references, descriptive fields. -/
structure Video where
  id : String
  createdAt : Nat
  updatedAt : Nat
  thumbnailURL : Option String
  videoURL : Option String
  title : String
  description : String
  userID : String
deriving DecidableEq

/-- The format-error message of `dbVideoToSignedVideo` (quotes of the
Go literal elided). -/
def formatErrMsg : String := "invalid video URL format; expected bucket,key"

/-- Go `dbVideoToSignedVideo(video database.Video) (database.Video, error)`.
`presign` stands for `generatePresignedURL` (an S3 presign call): given
bucket and key it yields a signed URL or fails.  The Go pair return
`(video, err)` is modelled as `Video × Option String` (`none` = no
error).  A `nil` VideoURL passes the record through; otherwise the
reference is split on `","` and must give exactly two parts
(`strings.Split` followed by `len(parts) != 2`); on every error path
the input record is returned unchanged; on success the returned copy
carries the signed URL in place of the reference. -/
def dbVideoToSignedVideo (presign : String → String → Except String String)
    (video : Video) : Video × Option String :=
  match video.videoURL with
  | none => (video, none)
  | some url =>
    match goSplit ',' url with
    | [bucket, key] =>
      match presign bucket key with
      | Except.error _ => (video, some "failed to generate presigned URL")
      | Except.ok signedURL => ({ video with videoURL := some signedURL }, none)
    | _ => (video, some formatErrMsg)

/-- Database-read failure discriminator of the handler:
`sql.ErrNoRows` versus any other error. -/
inductive DBErr where
  | noRows : DBErr
  | other : DBErr
deriving DecidableEq

/-- An HTTP response written by the handler: `respondWithError`
(status, message) or `respondWithJSON` (status, video payload). -/
inductive Response where
  | error (status : Nat) (msg : String) : Response
  | json (status : Nat) (video : Video) : Response
deriving DecidableEq

/-- Side effects of one handler run, in execution order.  `fileCreated`
and `fileRemoved` are local filesystem effects (`os.CreateTemp`, an
output file written by the external tool, `os.Remove`); `remuxRun` and
`probeRun` are invocations of the external ffmpeg/ffprobe tools;
`putObject` is the S3 write (bucket, key, content type); `dbUpdate` is
the record-store write `cfg.db.UpdateVideo`. -/
inductive Event where
  | fileCreated (path : String) : Event
  | fileRemoved (path : String) : Event
  | remuxRun (input : String) : Event
  | probeRun (path : String) : Event
  | putObject (bucket key contentType : String) : Event
  | dbUpdate (video : Video) : Event
deriving DecidableEq

/-- The environment of one request: the outcome of every external
interaction `handlerUploadVideo` performs, plus request data.
`bodySize` is the byte length of the uploaded part; the Go handler
declares `uploadLimit = 1 << 30` but never applies it, so no field of
the handler reads `bodySize`.  On `randOk = false` the Go buffer
content is unspecified; the model keeps using `randBytes` (no claim
depends on the buffer content of a failed-randomness run). -/
structure Env where
  videoIDParse : Except String String
  bearerToken : Except String String
  validateJWT : Except String String
  getVideo : Except DBErr Video
  formFile : Except String String
  bodySize : Nat
  randOk : Bool
  randBytes : List Nat
  createTemp : Except Unit String
  copyOk : Bool
  remuxOk : Bool
  remuxCreatesOutput : Bool
  openProcessedOk : Bool
  probe : ProbeResult
  putObjectOk : Bool
  updateOk : Bool
  s3Bucket : String
  presign : String → String → Except String String

/-- Go `const uploadLimit = 1 << 30` (line 27 of the handler): declared
and never used by any later statement of the function. -/
def uploadLimit : Nat := 2 ^ 30

/-- Go `processVideoForFastStart(filePath string) (string, error)`:
computes `outputPath = filePath + ".processing"`, runs ffmpeg with
fixed arguments writing to that path, and returns the path on success.
`remuxOk` is the tool outcome; `createsOutput` records whether a
failing tool run still created (part of) the output file — the Go
function removes nothing on failure. -/
def processVideoForFastStart (filePath : String) (remuxOk createsOutput : Bool) :
    Except String String × List Event :=
  if remuxOk then
    (Except.ok (filePath ++ ".processing"),
     [Event.remuxRun filePath, Event.fileCreated (filePath ++ ".processing")])
  else
    (Except.error "failed to process video for fast start",
     Event.remuxRun filePath ::
       (if createsOutput then [Event.fileCreated (filePath ++ ".processing")] else []))

/-- The tail of `handlerUploadVideo` from the `os.Open(processedPath)`
call on: by this point the two `defer os.Remove` statements are
registered, so every return path below is followed by both removals
(appended by the caller).  Mirrors the Go lines: open processed file,
`getVideoAspectRatio`, object key `orientation + "/" + fileName`,
`PutObject`, reference `bucket + "," + objKey`, `UpdateVideo`,
`dbVideoToSignedVideo`, final JSON response. -/
def afterRemux (env : Env) (video : Video) (mediatype fileName processedPath : String) :
    List Response × List Event :=
  if env.openProcessedOk then
    match getVideoAspectRatio env.probe with
    | Except.error _ =>
      ([Response.error 500 "Error getting aspect ratio"], [Event.probeRun processedPath])
    | Except.ok orientation =>
      if env.putObjectOk then
        if env.updateOk then
          match (dbVideoToSignedVideo env.presign
              { video with
                videoURL := some (env.s3Bucket ++ "," ++ (orientation ++ "/" ++ fileName)) }).2 with
          | some _ =>
            ([Response.error 500 "Error generating signed video URL when uploading"],
             [Event.probeRun processedPath,
              Event.putObject env.s3Bucket (orientation ++ "/" ++ fileName) mediatype,
              Event.dbUpdate { video with
                videoURL := some (env.s3Bucket ++ "," ++ (orientation ++ "/" ++ fileName)) }])
          | none =>
            ([Response.json 200 (dbVideoToSignedVideo env.presign
               { video with
                 videoURL := some (env.s3Bucket ++ "," ++ (orientation ++ "/" ++ fileName)) }).1],
             [Event.probeRun processedPath,
              Event.putObject env.s3Bucket (orientation ++ "/" ++ fileName) mediatype,
              Event.dbUpdate { video with
                videoURL := some (env.s3Bucket ++ "," ++ (orientation ++ "/" ++ fileName)) }])
        else
          ([Response.error 500 "Error updating video metadata"],
           [Event.probeRun processedPath,
            Event.putObject env.s3Bucket (orientation ++ "/" ++ fileName) mediatype,
            Event.dbUpdate { video with
              videoURL := some (env.s3Bucket ++ "," ++ (orientation ++ "/" ++ fileName)) }])
      else
        ([Response.error 500 "Failed to upload video to S3"],
         [Event.probeRun processedPath,
          Event.putObject env.s3Bucket (orientation ++ "/" ++ fileName) mediatype])
  else ([Response.error 500 "Error opening processed video"], [])

/-- Go `handlerUploadVideo`: ID parse, bearer token, JWT validation,
record fetch (distinguishing `sql.ErrNoRows`), ownership check,
multipart form file, media-type parse and `video/mp4` gate, extension
from the raw Content-Type header (`strings.Split(contentType, "/")[1]`),
32 random bytes (note: the Go source writes the 500 response on a
`rand.Read` failure but is missing a `return`, so execution falls
through to the rest of the pipeline), temp-file staging, remux, then
`afterRemux` with both deferred removals appended (LIFO: processed
first, original second). -/
def handlerUploadVideo (env : Env) : List Response × List Event :=
  match env.videoIDParse with
  | Except.error _ => ([Response.error 400 "Invalid ID"], [])
  | Except.ok _ =>
    match env.bearerToken with
    | Except.error _ => ([Response.error 401 "Could not find JWT"], [])
    | Except.ok _ =>
      match env.validateJWT with
      | Except.error _ => ([Response.error 401 "Could not validate JWT"], [])
      | Except.ok userID =>
        match env.getVideo with
        | Except.error DBErr.noRows => ([Response.error 404 "No video with videoID"], [])
        | Except.error DBErr.other => ([Response.error 500 "Could not read file"], [])
        | Except.ok video =>
          if video.userID ≠ userID then
            ([Response.error 401 "Unauthorized to upload video"], [])
          else
            match env.formFile with
            | Except.error _ => ([Response.error 400 "Unable to parse form file"], [])
            | Except.ok contentType =>
              match parseMediaType contentType with
              | Except.error _ => ([Response.error 400 "Error parsing media type"], [])
              | Except.ok mediatype =>
                if mediatype ≠ "video/mp4" then
                  ([Response.error 400 "Media type is not allowed"], [])
                else
                  match env.createTemp with
                  | Except.error _ =>
                    ((if env.randOk then []
                      else [Response.error 500 "Error creating random file name"]) ++
                       [Response.error 500 "Error creating file"], [])
                  | Except.ok originalPath =>
                    if env.copyOk then
                      match processVideoForFastStart originalPath env.remuxOk
                          env.remuxCreatesOutput with
                      | (Except.error _, remuxEvents) =>
                        ((if env.randOk then []
                          else [Response.error 500 "Error creating random file name"]) ++
                           [Response.error 500 "Error processing video for fast start"],
                         Event.fileCreated originalPath :: remuxEvents ++
                           [Event.fileRemoved originalPath])
                      | (Except.ok processedPath, remuxEvents) =>
                        ((if env.randOk then []
                          else [Response.error 500 "Error creating random file name"]) ++
                           (afterRemux env video mediatype
                             (base64RawURLEncode env.randBytes ++ "." ++
                               goIndex1 (goSplit '/' contentType)) processedPath).1,
                         Event.fileCreated originalPath :: remuxEvents ++
                           (afterRemux env video mediatype
                             (base64RawURLEncode env.randBytes ++ "." ++
                               goIndex1 (goSplit '/' contentType)) processedPath).2 ++
                           [Event.fileRemoved processedPath, Event.fileRemoved originalPath])
                    else
                      ((if env.randOk then []
                        else [Response.error 500 "Error creating random file name"]) ++
                         [Response.error 500 "Error copying data to file"],
                       [Event.fileCreated originalPath, Event.fileRemoved originalPath])

/-- A sample owned video record with no stored reference yet. -/
def sampleVideo : Video :=
  ⟨"videoid", 0, 0, none, none, "title", "description", "owner"⟩

/-- Thirty-two zero bytes, the random buffer of the sample runs. -/
def zeroBytes : List Nat := List.replicate 32 0

/-- The base64url raw encoding of 32 zero bytes: 43 occurrences of `A`. -/
def zeroName : String := "AAAAAAAAAAAAAAAAAAAAAAAAAAAAAAAAAAAAAAAAAAA"

/-- An environment in which every external interaction succeeds:
owner-authenticated request on `sampleVideo`, declared type
`video/mp4`, 32 zero random bytes, a 1920x1080 first probed stream. -/
def okEnv : Env where
  videoIDParse := Except.ok "videoid"
  bearerToken := Except.ok "token"
  validateJWT := Except.ok "owner"
  getVideo := Except.ok sampleVideo
  formFile := Except.ok "video/mp4"
  bodySize := 1024
  randOk := true
  randBytes := zeroBytes
  createTemp := Except.ok "/tmp/tubely-upload"
  copyOk := true
  remuxOk := true
  remuxCreatesOutput := true
  openProcessedOk := true
  probe := ProbeResult.parsed ⟨[⟨1920, 1080⟩]⟩
  putObjectOk := true
  updateOk := true
  s3Bucket := "bucket"
  presign := fun _ _ => Except.ok "https://signed.example"

/-- The environment of the oversized-body run: identical to `okEnv` but
with a body one byte over the (unenforced) limit. -/
def c2Env : Env := { okEnv with bodySize := uploadLimit + 1 }

/-- The environment of the failed-randomness run: identical to `okEnv`
but `rand.Read` fails. -/
def c3Env : Env := { okEnv with randOk := false }

/-- The environment of the uppercase-subtype run: identical to `okEnv`
but the declared Content-Type header is `video/MP4`. -/
def c5Env : Env := { okEnv with formFile := Except.ok "video/MP4" }

/-- The environment of the failed-randomness run used for the record
update claim: identical to `okEnv` but `rand.Read` fails. -/
def c6Env : Env := { okEnv with randOk := false }

/-- The environment of the failed-remux run: identical to `okEnv` but
the external remux tool fails after creating its output file. -/
def c7Env : Env := { okEnv with remuxOk := false }

/-- The environment of the wrong-owner run: identical to `okEnv` but the
JWT validates to a caller who does not own the record. -/
def c8Env : Env := { okEnv with validateJWT := Except.ok "intruder" }

/-- Every successful classification is one of the three labels. -/
theorem getVideoAspectRatio_ok_cases (pr : ProbeResult) (s : String)
    (h : getVideoAspectRatio pr = Except.ok s) :
    s = "landscape" ∨ s = "portrait" ∨ s = "other" := by
  simp only [getVideoAspectRatio] at h
  repeat' split at h
  all_goals simp_all

/-- A 1920x1080 first stream classifies as landscape. -/
theorem probe_sample_landscape :
    getVideoAspectRatio (ProbeResult.parsed ⟨[⟨1920, 1080⟩]⟩) = Except.ok "landscape" := by
  decide

/-- The post-remux tail of the handler creates no files. -/
theorem afterRemux_no_fileCreated (env : Env) (video : Video) (mt fn pp p : String) :
    Event.fileCreated p ∉ (afterRemux env video mt fn pp).2 := by
  rcases hAR : afterRemux env video mt fn pp with ⟨resp, events⟩
  unfold afterRemux at hAR
  repeat' split at hAR
  all_goals injection hAR with h1 h2
  all_goals subst h2
  all_goals simp

/-- The post-remux tail of the handler writes exactly one response. -/
theorem afterRemux_resp_singleton (env : Env) (video : Video) (mt fn pp : String) :
    ∃ r, (afterRemux env video mt fn pp).1 = [r] := by
  rcases hAR : afterRemux env video mt fn pp with ⟨resp, events⟩
  unfold afterRemux at hAR
  repeat' split at hAR
  all_goals injection hAR with h1 h2
  all_goals subst h1
  all_goals exact ⟨_, rfl⟩

/-- When the post-remux tail responds with JSON, the probe succeeded with
some orientation and the S3 write and the record update both happened,
with the key and reference built from that orientation and the file name. -/
theorem afterRemux_json (env : Env) (video : Video) (mt fn pp : String) (v : Video)
    (hresp : (afterRemux env video mt fn pp).1 = [Response.json 200 v]) :
    ∃ orientation, getVideoAspectRatio env.probe = Except.ok orientation ∧
      Event.putObject env.s3Bucket (orientation ++ "/" ++ fn) mt ∈
        (afterRemux env video mt fn pp).2 ∧
      Event.dbUpdate { video with videoURL := some (env.s3Bucket ++ "," ++ (orientation ++ "/" ++ fn)) } ∈
        (afterRemux env video mt fn pp).2 := by
  rcases hAR : afterRemux env video mt fn pp with ⟨resp, events⟩
  rw [hAR] at hresp
  unfold afterRemux at hAR
  repeat' split at hAR
  all_goals injection hAR with h1 h2
  all_goals subst h1
  all_goals subst h2
  all_goals simp at hresp
  all_goals rename_i hopen xE o hor hput hupd2 xO hdb
  exact ⟨o, hor, by simp, by simp⟩

/-- C2 (code evaluated at the failing input): the handler declares
`uploadLimit = 2^30` but never applies it — no field of the environment
carrying the body size is ever read.  A request whose body is one byte
over the limit, with every step succeeding, is fully staged, remuxed,
uploaded to S3 and answered 200; it is not rejected. -/
theorem c2_upload_limit_not_enforced :
    c2Env.bodySize = uploadLimit + 1 ∧
    (handlerUploadVideo c2Env).1 =
      [Response.json 200 { sampleVideo with videoURL := some "https://signed.example" }] ∧
    Event.putObject "bucket" ("landscape/" ++ zeroName ++ ".mp4") "video/mp4" ∈
      (handlerUploadVideo c2Env).2 := by
  have hmt : parseMediaType "video/mp4" = Except.ok "video/mp4" := by decide
  have hext : goIndex1 (goSplit '/' "video/mp4") = "mp4" := by decide
  have hb64 : base64RawURLEncode zeroBytes = zeroName := by decide
  have hsplit : goSplit ',' "bucket,landscape/AAAAAAAAAAAAAAAAAAAAAAAAAAAAAAAAAAAAAAAAAAA.mp4" =
      ["bucket", "landscape/AAAAAAAAAAAAAAAAAAAAAAAAAAAAAAAAAAAAAAAAAAA.mp4"] := by decide
  refine ⟨rfl, ?_, ?_⟩ <;>
    simp [handlerUploadVideo, c2Env, okEnv, afterRemux, processVideoForFastStart,
      dbVideoToSignedVideo, probe_sample_landscape, hmt, hext, hb64, hsplit,
      sampleVideo, zeroName]

/-- C3 (code evaluated at the failing input): when reading the 32 random
bytes fails (and everything later succeeds), the Go handler writes the
500 response but — missing a `return` — continues the pipeline: the file
is staged, remux runs, the object is uploaded, the record is updated,
and a second (JSON 200) response is written. -/
theorem c3_rand_failure_continues_pipeline :
    (handlerUploadVideo c3Env).1 =
      [Response.error 500 "Error creating random file name",
       Response.json 200 { sampleVideo with videoURL := some "https://signed.example" }] ∧
    Event.fileCreated "/tmp/tubely-upload" ∈ (handlerUploadVideo c3Env).2 ∧
    Event.remuxRun "/tmp/tubely-upload" ∈ (handlerUploadVideo c3Env).2 ∧
    Event.putObject "bucket" ("landscape/" ++ zeroName ++ ".mp4") "video/mp4" ∈
      (handlerUploadVideo c3Env).2 ∧
    Event.dbUpdate { sampleVideo with videoURL := some ("bucket,landscape/" ++ zeroName ++ ".mp4") } ∈
      (handlerUploadVideo c3Env).2 := by
  have hmt : parseMediaType "video/mp4" = Except.ok "video/mp4" := by decide
  have hext : goIndex1 (goSplit '/' "video/mp4") = "mp4" := by decide
  have hb64 : base64RawURLEncode zeroBytes = zeroName := by decide
  have hsplit : goSplit ',' "bucket,landscape/AAAAAAAAAAAAAAAAAAAAAAAAAAAAAAAAAAAAAAAAAAA.mp4" =
      ["bucket", "landscape/AAAAAAAAAAAAAAAAAAAAAAAAAAAAAAAAAAAAAAAAAAA.mp4"] := by decide
  refine ⟨?_, ?_, ?_, ?_, ?_⟩ <;>
    simp [handlerUploadVideo, c3Env, okEnv, afterRemux, processVideoForFastStart,
      dbVideoToSignedVideo, probe_sample_landscape, hmt, hext, hb64, hsplit,
      sampleVideo, zeroName]

/-- C4 (counterexample): the claim says a reference with an empty bucket
component fails with a format error; but `",key"` splits into exactly
two parts, passes the `len(parts) != 2` check, and presigning proceeds
(succeeding here), so no error at all is returned. -/
theorem c4_counterexample :
    dbVideoToSignedVideo (fun _ _ => Except.ok "https://signed.example")
        { sampleVideo with videoURL := some ",key" } =
      ({ sampleVideo with videoURL := some "https://signed.example" }, none) := by
  decide

/-- C4 (amended): a stored reference splitting into any number of
comma-separated parts other than two — zero commas or more than one
comma — fails with the format error and the record is returned
unchanged.  (Emptiness of the two components is NOT checked: a
reference with exactly one comma passes the format check even when
bucket or key is empty, see the counterexample.) -/
theorem c4_amended (presign : String → String → Except String String) (video : Video)
    (url : String) (hurl : video.videoURL = some url)
    (hlen : (goSplit ',' url).length ≠ 2) :
    dbVideoToSignedVideo presign video = (video, some formatErrMsg) := by
  rcases hsp : goSplit ',' url with _ | ⟨b, _ | ⟨k, _ | _⟩⟩ <;>
    simp [dbVideoToSignedVideo, hurl, hsp] at hlen ⊢

/-- C4 (witness): `c4_amended` evaluated on a two-comma reference. -/
theorem c4_witness :
    (goSplit ',' "a,b,c").length ≠ 2 ∧
    dbVideoToSignedVideo (fun _ _ => Except.ok "u") { sampleVideo with videoURL := some "a,b,c" } =
      ({ sampleVideo with videoURL := some "a,b,c" }, some formatErrMsg) :=
  ⟨by decide,
   c4_amended (fun _ _ => Except.ok "u") { sampleVideo with videoURL := some "a,b,c" }
     "a,b,c" rfl (by decide)⟩

/-- C5 (counterexample): the claim says the key extension is the
declared content type subtype (`mp4` for any accepted request).  A
request declaring `video/MP4` is accepted (the parsed media type is
`video/mp4`, whose subtype is `mp4`), but the code takes the extension
from the RAW header after `"/"`, producing key extension `MP4`. -/
theorem c5_counterexample :
    parseMediaType "video/MP4" = Except.ok "video/mp4" ∧
    (handlerUploadVideo c5Env).1 =
      [Response.json 200 { sampleVideo with videoURL := some "https://signed.example" }] ∧
    Event.putObject "bucket" ("landscape/" ++ zeroName ++ ".MP4") "video/mp4" ∈
      (handlerUploadVideo c5Env).2 ∧
    (∀ b k c, Event.putObject b k c ∈ (handlerUploadVideo c5Env).2 →
      k = "landscape/" ++ zeroName ++ ".MP4") ∧
    ("landscape/" ++ zeroName ++ ".MP4" : String) ≠ "landscape/" ++ zeroName ++ ".mp4" := by
  have hmt : parseMediaType "video/MP4" = Except.ok "video/mp4" := by decide
  have hext : goIndex1 (goSplit '/' "video/MP4") = "MP4" := by decide
  have hb64 : base64RawURLEncode zeroBytes = zeroName := by decide
  have hsplit : goSplit ',' "bucket,landscape/AAAAAAAAAAAAAAAAAAAAAAAAAAAAAAAAAAAAAAAAAAA.MP4" =
      ["bucket", "landscape/AAAAAAAAAAAAAAAAAAAAAAAAAAAAAAAAAAAAAAAAAAA.MP4"] := by decide
  refine ⟨hmt, ?_, ?_, ?_, by decide⟩ <;>
    simp [handlerUploadVideo, c5Env, okEnv, afterRemux, processVideoForFastStart,
      dbVideoToSignedVideo, probe_sample_landscape, hmt, hext, hb64, hsplit,
      sampleVideo, zeroName]
  exact fun b k c _ hk _ => hk

/-- C5 (amended): for every run that ends with exactly the single
success response, the object key is
`{orientation}/{randomName}.{extension}` with orientation one of the
three labels, randomName the URL-safe base64 of the random bytes, and
extension the part of the RAW declared Content-Type header after the
first slash (which equals the subtype `mp4` exactly when the header is
literally `video/mp4`); the reference persisted equals `{bucket},{key}`. -/
theorem c5_amended (env : Env) (v : Video)
    (h : (handlerUploadVideo env).1 = [Response.json 200 v]) :
    ∃ ct orientation,
      env.formFile = Except.ok ct ∧
      (orientation = "landscape" ∨ orientation = "portrait" ∨ orientation = "other") ∧
      Event.putObject env.s3Bucket
          (orientation ++ "/" ++ (base64RawURLEncode env.randBytes ++ "." ++
            goIndex1 (goSplit '/' ct))) "video/mp4" ∈ (handlerUploadVideo env).2 ∧
      ∃ video, env.getVideo = Except.ok video ∧
        Event.dbUpdate { video with videoURL := some (env.s3Bucket ++ "," ++
          (orientation ++ "/" ++ (base64RawURLEncode env.randBytes ++ "." ++
            goIndex1 (goSplit '/' ct)))) } ∈ (handlerUploadVideo env).2 := by
  cases hvp : env.videoIDParse with
  | error e => simp [handlerUploadVideo, hvp] at h
  | ok videoID =>
  cases hbt : env.bearerToken with
  | error e => simp [handlerUploadVideo, hvp, hbt] at h
  | ok tok =>
  cases hvj : env.validateJWT with
  | error e => simp [handlerUploadVideo, hvp, hbt, hvj] at h
  | ok userID =>
  cases hgv : env.getVideo with
  | error dbe => cases dbe <;> simp [handlerUploadVideo, hvp, hbt, hvj, hgv] at h
  | ok video =>
  by_cases hown : video.userID = userID
  case neg => simp [handlerUploadVideo, hvp, hbt, hvj, hgv, hown] at h
  case pos =>
  cases hff : env.formFile with
  | error e => simp [handlerUploadVideo, hvp, hbt, hvj, hgv, hown, hff] at h
  | ok ct =>
  cases hmt : parseMediaType ct with
  | error e => simp [handlerUploadVideo, hvp, hbt, hvj, hgv, hown, hff, hmt] at h
  | ok mt =>
  by_cases hmp : mt = "video/mp4"
  case neg => simp [handlerUploadVideo, hvp, hbt, hvj, hgv, hown, hff, hmt, hmp] at h
  case pos =>
  subst hmp
  cases hct : env.createTemp with
  | error e =>
    cases hro : env.randOk <;>
      simp [handlerUploadVideo, hvp, hbt, hvj, hgv, hown, hff, hmt, hct, hro] at h
  | ok t =>
  cases hcp : env.copyOk with
  | false =>
    cases hro : env.randOk <;>
      simp [handlerUploadVideo, hvp, hbt, hvj, hgv, hown, hff, hmt, hct, hcp, hro] at h
  | true =>
  cases hrx : env.remuxOk with
  | false =>
    cases hro : env.randOk <;>
      simp [handlerUploadVideo, hvp, hbt, hvj, hgv, hown, hff, hmt, hct, hcp,
        processVideoForFastStart, hrx, hro] at h
  | true =>
  cases hro : env.randOk with
  | false =>
    obtain ⟨r, hr⟩ := afterRemux_resp_singleton env video "video/mp4"
      (base64RawURLEncode env.randBytes ++ "." ++ goIndex1 (goSplit '/' ct)) (t ++ ".processing")
    simp [handlerUploadVideo, hvp, hbt, hvj, hgv, hown, hff, hmt, hct, hcp,
      processVideoForFastStart, hrx, hro, hr] at h
  | true =>
    rw [show (handlerUploadVideo env).1 =
        (afterRemux env video "video/mp4"
          (base64RawURLEncode env.randBytes ++ "." ++ goIndex1 (goSplit '/' ct))
          (t ++ ".processing")).1 from by
      simp [handlerUploadVideo, hvp, hbt, hvj, hgv, hown, hff, hmt, hct, hcp,
        processVideoForFastStart, hrx, hro]] at h
    obtain ⟨orientation, hor, hput, hupd⟩ := afterRemux_json env video "video/mp4"
      (base64RawURLEncode env.randBytes ++ "." ++ goIndex1 (goSplit '/' ct))
      (t ++ ".processing") v h
    rw [hown] at hupd
    refine ⟨ct, orientation, rfl, getVideoAspectRatio_ok_cases _ _ hor, ?_, video, rfl, ?_⟩ <;>
      simp [handlerUploadVideo, hvp, hbt, hvj, hgv, hown, hff, hmt, hct, hcp,
        processVideoForFastStart, hrx, hro, hput, hupd]

/-- C5 (witness): `c5_amended` applied to the all-success sample run. -/
theorem c5_witness :
    (handlerUploadVideo okEnv).1 =
      [Response.json 200 { sampleVideo with videoURL := some "https://signed.example" }] ∧
    ∃ ct orientation,
      okEnv.formFile = Except.ok ct ∧
      (orientation = "landscape" ∨ orientation = "portrait" ∨ orientation = "other") ∧
      Event.putObject okEnv.s3Bucket
          (orientation ++ "/" ++ (base64RawURLEncode okEnv.randBytes ++ "." ++
            goIndex1 (goSplit '/' ct))) "video/mp4" ∈ (handlerUploadVideo okEnv).2 ∧
      ∃ video, okEnv.getVideo = Except.ok video ∧
        Event.dbUpdate { video with videoURL := some (okEnv.s3Bucket ++ "," ++
          (orientation ++ "/" ++ (base64RawURLEncode okEnv.randBytes ++ "." ++
            goIndex1 (goSplit '/' ct)))) } ∈ (handlerUploadVideo okEnv).2 := by
  have hmt : parseMediaType "video/mp4" = Except.ok "video/mp4" := by decide
  have hext : goIndex1 (goSplit '/' "video/mp4") = "mp4" := by decide
  have hb64 : base64RawURLEncode zeroBytes = zeroName := by decide
  have hsplit : goSplit ',' "bucket,landscape/AAAAAAAAAAAAAAAAAAAAAAAAAAAAAAAAAAAAAAAAAAA.mp4" =
      ["bucket", "landscape/AAAAAAAAAAAAAAAAAAAAAAAAAAAAAAAAAAAAAAAAAAA.mp4"] := by decide
  have h1 : (handlerUploadVideo okEnv).1 =
      [Response.json 200 { sampleVideo with videoURL := some "https://signed.example" }] := by
    simp [handlerUploadVideo, okEnv, afterRemux, processVideoForFastStart,
      dbVideoToSignedVideo, probe_sample_landscape, hmt, hext, hb64, hsplit,
      sampleVideo, zeroName]
  exact ⟨h1, c5_amended okEnv _ h1⟩

/-- C6 (code evaluated at the failing input): a request that fails at
the random-name step (its first — and status-bearing — response is the
500 error) still overwrites the record storage reference when the later
steps succeed, because of the missing `return`: the trace contains the
record update with the new `{bucket},{key}` reference. -/
theorem c6_failed_request_still_updates_record :
    (handlerUploadVideo c6Env).1.head? =
      some (Response.error 500 "Error creating random file name") ∧
    Event.dbUpdate { sampleVideo with videoURL := some ("bucket,landscape/" ++ zeroName ++ ".mp4") } ∈
      (handlerUploadVideo c6Env).2 := by
  have hmt : parseMediaType "video/mp4" = Except.ok "video/mp4" := by decide
  have hext : goIndex1 (goSplit '/' "video/mp4") = "mp4" := by decide
  have hb64 : base64RawURLEncode zeroBytes = zeroName := by decide
  have hsplit : goSplit ',' "bucket,landscape/AAAAAAAAAAAAAAAAAAAAAAAAAAAAAAAAAAAAAAAAAAA.mp4" =
      ["bucket", "landscape/AAAAAAAAAAAAAAAAAAAAAAAAAAAAAAAAAAAAAAAAAAA.mp4"] := by decide
  refine ⟨?_, ?_⟩ <;>
    simp [handlerUploadVideo, c6Env, okEnv, afterRemux, processVideoForFastStart,
      dbVideoToSignedVideo, probe_sample_landscape, hmt, hext, hb64, hsplit,
      sampleVideo, zeroName]

/-- C7 (counterexample): the claim says any output file the remux step
produced is removed by request end.  In a run where the external tool
creates the output file and then fails, the handler removes only the
staged file: the created `.processing` file is never removed. -/
theorem c7_counterexample :
    handlerUploadVideo c7Env =
      ([Response.error 500 "Error processing video for fast start"],
       [Event.fileCreated "/tmp/tubely-upload",
        Event.remuxRun "/tmp/tubely-upload",
        Event.fileCreated "/tmp/tubely-upload.processing",
        Event.fileRemoved "/tmp/tubely-upload"]) ∧
    Event.fileRemoved "/tmp/tubely-upload.processing" ∉ (handlerUploadVideo c7Env).2 := by
  have hmt : parseMediaType "video/mp4" = Except.ok "video/mp4" := by decide
  refine ⟨?_, ?_⟩ <;>
    simp [handlerUploadVideo, c7Env, okEnv, processVideoForFastStart, hmt, sampleVideo]

/-- C7 (amended): every file the handler creates is removed by the time
the request ends — on every exit path — PROVIDED a failing remux leaves
no output file behind (`remuxCreatesOutput = false` whenever
`remuxOk = false`); the output file of a failed remux attempt is the one
exception and is not removed (see the counterexample). -/
theorem c7_amended (env : Env) (p : String)
    (hno : env.remuxCreatesOutput = false ∨ env.remuxOk = true)
    (hc : Event.fileCreated p ∈ (handlerUploadVideo env).2) :
    Event.fileRemoved p ∈ (handlerUploadVideo env).2 := by
  cases hvp : env.videoIDParse with
  | error e => simp [handlerUploadVideo, hvp] at hc
  | ok videoID =>
  cases hbt : env.bearerToken with
  | error e => simp [handlerUploadVideo, hvp, hbt] at hc
  | ok tok =>
  cases hvj : env.validateJWT with
  | error e => simp [handlerUploadVideo, hvp, hbt, hvj] at hc
  | ok userID =>
  cases hgv : env.getVideo with
  | error dbe => cases dbe <;> simp [handlerUploadVideo, hvp, hbt, hvj, hgv] at hc
  | ok video =>
  by_cases hown : video.userID = userID
  case neg => simp [handlerUploadVideo, hvp, hbt, hvj, hgv, hown] at hc
  case pos =>
  cases hff : env.formFile with
  | error e => simp [handlerUploadVideo, hvp, hbt, hvj, hgv, hown, hff] at hc
  | ok ct =>
  cases hmt : parseMediaType ct with
  | error e => simp [handlerUploadVideo, hvp, hbt, hvj, hgv, hown, hff, hmt] at hc
  | ok mt =>
  by_cases hmp : mt = "video/mp4"
  case neg => simp [handlerUploadVideo, hvp, hbt, hvj, hgv, hown, hff, hmt, hmp] at hc
  case pos =>
  cases hct : env.createTemp with
  | error e => simp [handlerUploadVideo, hvp, hbt, hvj, hgv, hown, hff, hmt, hmp, hct] at hc
  | ok t =>
  cases hcp : env.copyOk with
  | false =>
    simp [handlerUploadVideo, hvp, hbt, hvj, hgv, hown, hff, hmt, hmp, hct, hcp] at hc ⊢
    exact hc
  | true =>
  cases hrx : env.remuxOk with
  | false =>
    rcases hno with hrc | hrx2
    · simp [handlerUploadVideo, hvp, hbt, hvj, hgv, hown, hff, hmt, hmp, hct, hcp,
        processVideoForFastStart, hrx, hrc] at hc ⊢
      exact hc
    · rw [hrx] at hrx2
      cases hrx2
  | true =>
    simp [handlerUploadVideo, hvp, hbt, hvj, hgv, hown, hff, hmt, hmp, hct, hcp,
      processVideoForFastStart, hrx] at hc ⊢
    rcases hc with rfl | rfl | hin
    · simp
    · simp
    · exact absurd hin (afterRemux_no_fileCreated _ _ _ _ _ _)

/-- C7 (witness): `c7_amended` applied to the all-success sample run and
the staged file. -/
theorem c7_witness :
    (okEnv.remuxCreatesOutput = false ∨ okEnv.remuxOk = true) ∧
    Event.fileCreated "/tmp/tubely-upload" ∈ (handlerUploadVideo okEnv).2 ∧
    Event.fileRemoved "/tmp/tubely-upload" ∈ (handlerUploadVideo okEnv).2 := by
  have hmt : parseMediaType "video/mp4" = Except.ok "video/mp4" := by decide
  have hext : goIndex1 (goSplit '/' "video/mp4") = "mp4" := by decide
  have hb64 : base64RawURLEncode zeroBytes = zeroName := by decide
  have hsplit : goSplit ',' "bucket,landscape/AAAAAAAAAAAAAAAAAAAAAAAAAAAAAAAAAAAAAAAAAAA.mp4" =
      ["bucket", "landscape/AAAAAAAAAAAAAAAAAAAAAAAAAAAAAAAAAAAAAAAAAAA.mp4"] := by decide
  have hc : Event.fileCreated "/tmp/tubely-upload" ∈ (handlerUploadVideo okEnv).2 := by
    simp [handlerUploadVideo, okEnv, afterRemux, processVideoForFastStart,
      dbVideoToSignedVideo, probe_sample_landscape, hmt, hext, hb64, hsplit,
      sampleVideo, zeroName]
  exact ⟨Or.inr rfl, hc, c7_amended okEnv "/tmp/tubely-upload" (Or.inr rfl) hc⟩

/-- C8: a request whose authenticated caller is not the record owner, or
whose parsed declared media type is not `video/mp4`, is rejected before
staging: no file is ever created, no S3 write is ever attempted, and the
handler writes exactly one error response. -/
theorem c8_reject_before_staging (env : Env)
    (hyp : (∃ video userID, env.validateJWT = Except.ok userID ∧
              env.getVideo = Except.ok video ∧ video.userID ≠ userID) ∨
           (∀ ct m, env.formFile = Except.ok ct → parseMediaType ct = Except.ok m →
              m ≠ "video/mp4")) :
    (∀ p, Event.fileCreated p ∉ (handlerUploadVideo env).2) ∧
    (∀ b k c, Event.putObject b k c ∉ (handlerUploadVideo env).2) ∧
    (∃ s msg, (handlerUploadVideo env).1 = [Response.error s msg]) := by
  cases hvp : env.videoIDParse with
  | error e =>
    exact ⟨fun p => by simp [handlerUploadVideo, hvp],
           fun b k c => by simp [handlerUploadVideo, hvp],
           400, "Invalid ID", by simp [handlerUploadVideo, hvp]⟩
  | ok videoID =>
  cases hbt : env.bearerToken with
  | error e =>
    exact ⟨fun p => by simp [handlerUploadVideo, hvp, hbt],
           fun b k c => by simp [handlerUploadVideo, hvp, hbt],
           401, "Could not find JWT", by simp [handlerUploadVideo, hvp, hbt]⟩
  | ok tok =>
  cases hvj : env.validateJWT with
  | error e =>
    exact ⟨fun p => by simp [handlerUploadVideo, hvp, hbt, hvj],
           fun b k c => by simp [handlerUploadVideo, hvp, hbt, hvj],
           401, "Could not validate JWT", by simp [handlerUploadVideo, hvp, hbt, hvj]⟩
  | ok userID =>
  cases hgv : env.getVideo with
  | error dbe =>
    cases dbe with
    | noRows =>
      exact ⟨fun p => by simp [handlerUploadVideo, hvp, hbt, hvj, hgv],
             fun b k c => by simp [handlerUploadVideo, hvp, hbt, hvj, hgv],
             404, "No video with videoID", by simp [handlerUploadVideo, hvp, hbt, hvj, hgv]⟩
    | other =>
      exact ⟨fun p => by simp [handlerUploadVideo, hvp, hbt, hvj, hgv],
             fun b k c => by simp [handlerUploadVideo, hvp, hbt, hvj, hgv],
             500, "Could not read file", by simp [handlerUploadVideo, hvp, hbt, hvj, hgv]⟩
  | ok video =>
  by_cases hown : video.userID = userID
  case neg =>
    exact ⟨fun p => by simp [handlerUploadVideo, hvp, hbt, hvj, hgv, hown],
           fun b k c => by simp [handlerUploadVideo, hvp, hbt, hvj, hgv, hown],
           401, "Unauthorized to upload video",
           by simp [handlerUploadVideo, hvp, hbt, hvj, hgv, hown]⟩
  case pos =>
  cases hff : env.formFile with
  | error e =>
    exact ⟨fun p => by simp [handlerUploadVideo, hvp, hbt, hvj, hgv, hown, hff],
           fun b k c => by simp [handlerUploadVideo, hvp, hbt, hvj, hgv, hown, hff],
           400, "Unable to parse form file",
           by simp [handlerUploadVideo, hvp, hbt, hvj, hgv, hown, hff]⟩
  | ok ct =>
  cases hmt : parseMediaType ct with
  | error e =>
    exact ⟨fun p => by simp [handlerUploadVideo, hvp, hbt, hvj, hgv, hown, hff, hmt],
           fun b k c => by simp [handlerUploadVideo, hvp, hbt, hvj, hgv, hown, hff, hmt],
           400, "Error parsing media type",
           by simp [handlerUploadVideo, hvp, hbt, hvj, hgv, hown, hff, hmt]⟩
  | ok mt =>
  by_cases hmp : mt = "video/mp4"
  case pos =>
    exfalso
    rcases hyp with ⟨video1, userID1, hvj1, hgv1, hne⟩ | hB
    · rw [hvj] at hvj1
      rw [hgv] at hgv1
      injection hvj1 with h1
      injection hgv1 with h2
      exact hne (h2 ▸ h1 ▸ hown)
    · exact hB ct mt hff hmt hmp
  case neg =>
    exact ⟨fun p => by simp [handlerUploadVideo, hvp, hbt, hvj, hgv, hown, hff, hmt, hmp],
           fun b k c => by simp [handlerUploadVideo, hvp, hbt, hvj, hgv, hown, hff, hmt, hmp],
           400, "Media type is not allowed",
           by simp [handlerUploadVideo, hvp, hbt, hvj, hgv, hown, hff, hmt, hmp]⟩

/-- C8 (witness): `c8_reject_before_staging` applied to a request whose
caller is not the owner of the sample record. -/
theorem c8_witness :
    (∃ video userID, c8Env.validateJWT = Except.ok userID ∧
       c8Env.getVideo = Except.ok video ∧ video.userID ≠ userID) ∧
    (∀ p, Event.fileCreated p ∉ (handlerUploadVideo c8Env).2) ∧
    (∀ b k c, Event.putObject b k c ∉ (handlerUploadVideo c8Env).2) ∧
    (∃ s msg, (handlerUploadVideo c8Env).1 = [Response.error s msg]) := by
  have hyp : ∃ video userID, c8Env.validateJWT = Except.ok userID ∧
      c8Env.getVideo = Except.ok video ∧ video.userID ≠ userID :=
    ⟨sampleVideo, "intruder", rfl, rfl, by decide⟩
  obtain ⟨ha, hb, hcc⟩ := c8_reject_before_staging c8Env (Or.inl hyp)
  exact ⟨hyp, ha, hb, hcc⟩

/-- C9: the classifier returns an error — never a default label — when
the probe run fails, the output fails to parse, the stream list is
empty, or the first stream has a zero dimension; and every successful
result is one of `landscape`, `portrait`, `other`. -/
theorem c9_classifier_error_paths (pr : ProbeResult) :
    ((pr = ProbeResult.runError ∨ pr = ProbeResult.parseError ∨
      (∃ out, pr = ProbeResult.parsed out ∧ out.streams = []) ∨
      (∃ out s rest, pr = ProbeResult.parsed out ∧ out.streams = s :: rest ∧
        (s.width = 0 ∨ s.height = 0))) →
      ∃ e, getVideoAspectRatio pr = Except.error e) ∧
    (∀ o, getVideoAspectRatio pr = Except.ok o →
      o = "landscape" ∨ o = "portrait" ∨ o = "other") := by
  constructor
  · rintro (rfl | rfl | ⟨out, rfl, hs⟩ | ⟨out, s, rest, rfl, hs, hz⟩)
    · exact ⟨_, rfl⟩
    · exact ⟨_, rfl⟩
    · exact ⟨"no streams found in video", by simp [getVideoAspectRatio, hs]⟩
    · exact ⟨"invalid width or height", by simp [getVideoAspectRatio, hs, hz]⟩
  · exact getVideoAspectRatio_ok_cases pr

/-- C9 (witness): `c9_classifier_error_paths` applied to a failed probe
run and to a successful 100x100 probe (which classifies as `other`). -/
theorem c9_witness :
    (∃ e, getVideoAspectRatio ProbeResult.runError = Except.error e) ∧
    ("other" = "landscape" ∨ "other" = "portrait" ∨ "other" = "other") :=
  ⟨(c9_classifier_error_paths ProbeResult.runError).1 (Or.inl rfl),
   (c9_classifier_error_paths (ProbeResult.parsed ⟨[⟨100, 100⟩]⟩)).2 "other" (by decide)⟩

/-- C10: whenever the presigned-view generator returns an error, the
video it returns is the input record unchanged; a record with no stored
reference passes through untouched with no error; and when no error is
returned on a stored reference, the reference split into a bucket and a
key, presigning succeeded, and the returned video is the input with
only VideoURL replaced by the signed URL. -/
theorem c10_signed_video_passthrough (presign : String → String → Except String String)
    (video : Video) :
    ((dbVideoToSignedVideo presign video).2.isSome →
      (dbVideoToSignedVideo presign video).1 = video) ∧
    (video.videoURL = none → dbVideoToSignedVideo presign video = (video, none)) ∧
    (∀ url, video.videoURL = some url → (dbVideoToSignedVideo presign video).2 = none →
      ∃ bucket key s, goSplit ',' url = [bucket, key] ∧ presign bucket key = Except.ok s ∧
        (dbVideoToSignedVideo presign video).1 = { video with videoURL := some s }) := by
  refine ⟨?_, ?_, ?_⟩
  · intro hs
    rcases hv : video.videoURL with _ | url
    · simp [dbVideoToSignedVideo, hv] at hs
    · rcases hsp : goSplit ',' url with _ | ⟨b, _ | ⟨k, _ | _⟩⟩ <;>
        simp [dbVideoToSignedVideo, hv, hsp] at hs ⊢
      rcases hps : presign b k with e | s <;> simp [hps] at hs ⊢
  · intro hnone
    simp [dbVideoToSignedVideo, hnone]
  · intro url hurl hnone
    rcases hsp : goSplit ',' url with _ | ⟨b, _ | ⟨k, _ | _⟩⟩ <;>
      simp [dbVideoToSignedVideo, hurl, hsp] at hnone ⊢
    rcases hps : presign b k with e | s <;> simp [hps] at hnone ⊢
    exact ⟨b, k, ⟨rfl, rfl⟩, hps⟩

/-- C10 (witness): `c10_signed_video_passthrough` applied to the sample
record with no stored reference: it passes through untouched. -/
theorem c10_witness :
    dbVideoToSignedVideo (fun _ _ => Except.ok "u") sampleVideo = (sampleVideo, none) :=
  (c10_signed_video_passthrough (fun _ _ => Except.ok "u") sampleVideo).2.1 rfl
